import Mathlib

/-!
Shallow embedding of the post-extraction validation engine of the
blood-exams repository (`src/core/validation.py` together with the data
model of `src/core/models.py` and the result-saving step of
`src/core/ai_service.py`).

Measurement values are `DecimalField` decimals in the source; they are
modelled as rationals (`ℚ`), and Python's cast-to-float for ratio
arithmetic is modelled as exact rational arithmetic.  Python's `round`
(round half to even) is modelled by `pyround`.  Free-text flag messages
are kept deterministic but their numeric formatting is abstracted; the
machine-readable evidence of the `details` dict is carried in a
`List (String × ℚ)` field.
-/

namespace BloodExams

/-- `FlagSeverity` from `validation.py`. -/
inductive FlagSeverity where
  | info
  | warning
  | error
  | autoCorrected
deriving DecidableEq, Repr

/-- `FlagCategory` from `validation.py`. -/
inductive FlagCategory where
  | physiological
  | crossBiomarker
  | wbcPercentage
  | duplicateExam
  | historical
  | lowConfidence
  | unmatched
deriving DecidableEq, Repr

/-- One row of `ExamResult` joined to its biomarker code: the view the
validation engine accesses (`results_by_code` values). -/
structure ResultRow where
  id : Nat
  examId : Nat
  code : String
  value : ℚ
deriving DecidableEq, Repr

/-- `ValidationFlag` dataclass from `validation.py`. -/
structure ValidationFlag where
  examResultId : Option Nat
  biomarkerCode : String
  severity : FlagSeverity
  category : FlagCategory
  message : String
  originalValue : Option ℚ := none
  correctedValue : Option ℚ := none
  details : List (String × ℚ) := []
deriving DecidableEq, Repr

/-- Exam status choices of the `Exam` model. -/
inductive ExamStatus where
  | pending
  | processing
  | completed
  | error
deriving DecidableEq, Repr

/-- One row of the `Exam` model (fields the engine reads).  Dates are
modelled as integers with the calendar order. -/
structure ExamRow where
  id : Nat
  userId : Nat
  examDate : ℤ
  uploadedAt : ℤ
  status : ExamStatus
deriving DecidableEq, Repr

/-- The database state the engine reads and writes: exams, exam results,
the biomarker catalog (codes), stored validation flags, and the next
primary key for created results. -/
structure DB where
  examsTable : List ExamRow
  resultsTable : List ResultRow
  catalogCodes : List String
  flagsTable : List (Nat × ValidationFlag)
  nextResultId : Nat
deriving Repr

/-- Python `round` on an exact rational: round half to even. -/
def pyround (q : ℚ) : ℤ :=
  let f := ⌊q⌋
  let r := q - (f : ℚ)
  if r < 1/2 then f
  else if 1/2 < r then f + 1
  else if f % 2 = 0 then f else f + 1

/-- `PHYSIOLOGICAL_LIMITS` table from `validation.py`. -/
def physiologicalLimits : String → Option (ℚ × ℚ) := fun c =>
  match c with
  | "HCT" => some (15, 70)
  | "HGB" => some (3, 25)
  | "RBC" => some (1.5, 8.0)
  | "WBC" => some (500, 100000)
  | "PLT" => some (5000, 1500000)
  | "VCM" => some (50, 130)
  | "HCM" => some (15, 45)
  | "CHCM" => some (25, 40)
  | "RDW" => some (8, 25)
  | "NEUT" => some (100, 50000)
  | "LYMPH" => some (100, 30000)
  | "MONO" => some (10, 5000)
  | "EOS" => some (0, 10000)
  | "BASO" => some (0, 3000)
  | "CT" => some (50, 500)
  | "HDL" => some (5, 150)
  | "LDL" => some (10, 400)
  | "VLDL" => some (1, 100)
  | "TG" => some (10, 2000)
  | "GLI" => some (20, 600)
  | "EAG" => some (20, 600)
  | "HBA1C" => some (3.0, 20.0)
  | "INS" => some (0.1, 500)
  | "TGO" => some (1, 2000)
  | "TGP" => some (1, 2000)
  | "GGT" => some (1, 5000)
  | "FA" => some (10, 3000)
  | "BILT" => some (0.05, 30)
  | "BILD" => some (0.01, 15)
  | "ALB" => some (1.0, 7.0)
  | "CREA" => some (0.1, 15.0)
  | "UREA" => some (3, 200)
  | "AU" => some (0.5, 20)
  | "TFG" => some (5, 200)
  | "TSH" => some (0.01, 100)
  | "T4L" => some (0.1, 10.0)
  | "T3L" => some (0.5, 15.0)
  | "T3T" => some (0.2, 5.0)
  | "VITD" => some (1, 200)
  | "B12" => some (50, 5000)
  | "FOLATO" => some (0.5, 50)
  | "FE" => some (5, 500)
  | "FERR" => some (1, 5000)
  | "ZN" => some (20, 300)
  | "MG" => some (0.5, 5.0)
  | "CA" => some (4.0, 16.0)
  | "CAI" => some (0.5, 2.0)
  | "NA" => some (100, 180)
  | "K" => some (1.5, 9.0)
  | "P" => some (0.5, 10.0)
  | "TESTO" => some (1, 3000)
  | "TESTOL" => some (0.1, 200)
  | "E2" => some (1, 1000)
  | "DHEAS" => some (5, 1000)
  | "CORT" => some (0.5, 50)
  | "IGF1" => some (10, 1000)
  | "PSA" => some (0.01, 100)
  | "PRL" => some (0.5, 200)
  | "LH" => some (0.1, 100)
  | "FSH" => some (0.1, 100)
  | "DHT" => some (10, 3000)
  | "SHBG" => some (1, 300)
  | "HGH" => some (0.01, 50)
  | "PTH" => some (1, 500)
  | "PCR" => some (0.01, 500)
  | "VHS" => some (0, 150)
  | "HOMO" => some (1, 100)
  | "PT" => some (2, 12)
  | "GLOB" => some (0.5, 7)
  | "PEPC" => some (0.1, 20)
  | "VITC" => some (0.1, 15)
  | "IGFBP3" => some (0.5, 15)
  | _ => none

/-- `VOLATILE_CODES` from `validation.py`. -/
def volatileCodes : List String :=
  ["INS", "CORT", "PRL", "HGH", "VHS", "PCR", "BASO", "EOS"]

/-- `results_by_code.get(c)`: first row carrying code `c`. -/
def getCode (p : List ResultRow) (c : String) : Option ResultRow :=
  p.find? (fun r => r.code == c)

/-- One step of building a Python dict keyed by code: a later row with an
already-present code overwrites the stored row, otherwise it is appended. -/
def dictInsert (acc : List ResultRow) (r : ResultRow) : List ResultRow :=
  if acc.any (fun a => a.code == r.code) then
    acc.map (fun a => if a.code == r.code then r else a)
  else acc ++ [r]

/-- The dict comprehension building `results_by_code` from a result list. -/
def byCode (rs : List ResultRow) : List ResultRow := rs.foldl dictInsert []

/-- `ExamResult.objects.filter(exam=exam)` joined to biomarker codes. -/
def resultsFor (db : DB) (examId : Nat) : List ResultRow :=
  db.resultsTable.filter (fun r => r.examId == examId)

/-- `results_by_code` for a given exam. -/
def resultsByCode (db : DB) (exam : ExamRow) : List ResultRow :=
  byCode (resultsFor db exam.id)

/-- The flag built by `_check_physiological_ranges` for one out-of-bounds row. -/
def physFlag (rid : Nat) (code : String) (v lo hi : ℚ) : ValidationFlag :=
  { examResultId := some rid, biomarkerCode := code,
    severity := .error, category := .physiological,
    message := code ++ " valor fora dos limites fisiologicos",
    originalValue := some v,
    details := [("abs_min", lo), ("abs_max", hi)] }

/-- The loop body of `_check_physiological_ranges` for one row. -/
def physRowFlag (r : ResultRow) : Option ValidationFlag :=
  match physiologicalLimits r.code with
  | none => none
  | some (lo, hi) =>
    if r.value < lo ∨ r.value > hi then some (physFlag r.id r.code r.value lo hi)
    else none

/-- Rule A: `_check_physiological_ranges`. -/
def checkPhysiologicalRanges (p : List ResultRow) : List ValidationFlag :=
  p.filterMap physRowFlag

/-- Rule B: `_check_lipid_formula`. -/
def checkLipidFormula (p : List ResultRow) : List ValidationFlag :=
  match getCode p "CT", getCode p "HDL", getCode p "LDL", getCode p "VLDL" with
  | some ct, some hdl, some ldl, some vldl =>
    let expected := hdl.value + ldl.value + vldl.value
    let actual := ct.value
    if expected ≤ 0 then []
    else
      let deviationPct := |actual - expected| / expected * 100
      if deviationPct > 15 then
        [{ examResultId := some ct.id, biomarkerCode := "CT",
           severity := .warning, category := .crossBiomarker,
           message := "CT difere da formula HDL+LDL+VLDL",
           details := [("expected", expected), ("actual", actual),
                       ("deviation_pct", deviationPct)] }]
      else []
  | _, _, _, _ => []

/-- The five WBC differential component codes. -/
def wbcComponents : List String := ["NEUT", "LYMPH", "MONO", "EOS", "BASO"]

/-- The dict comprehension `available` of `_check_wbc_sum`. -/
def wbcAvailable (p : List ResultRow) : List ResultRow :=
  wbcComponents.filterMap (getCode p)

/-- Rule B: `_check_wbc_sum`. -/
def checkWbcSum (p : List ResultRow) : List ValidationFlag :=
  match getCode p "WBC" with
  | none => []
  | some wbc =>
    if (wbcAvailable p).length < 3 then []
    else
      let componentSum := ((wbcAvailable p).map (fun r => r.value)).sum
      let wbcVal := wbc.value
      if wbcVal ≤ 0 then []
      else
        let deviationPct := |wbcVal - componentSum| / wbcVal * 100
        if deviationPct > 10 then
          [{ examResultId := some wbc.id, biomarkerCode := "WBC",
             severity := .warning, category := .crossBiomarker,
             message := "WBC difere da soma dos componentes",
             details := [("wbc", wbcVal), ("component_sum", componentSum)] }]
        else []

/-- The four primary differential codes of `_check_wbc_percentages`. -/
def wbcDiffCodes : List String := ["NEUT", "LYMPH", "MONO", "EOS"]

/-- The dict comprehension `diff_results` of `_check_wbc_percentages`. -/
def diffResults (p : List ResultRow) : List ResultRow :=
  wbcDiffCodes.filterMap (getCode p)

/-- The auto-correction flag built for one percentage-encoded row. -/
def pctFlag (wbcVal : ℚ) (r : ResultRow) : ValidationFlag :=
  { examResultId := some r.id, biomarkerCode := r.code,
    severity := .autoCorrected, category := .wbcPercentage,
    message := r.code ++ " parece ser percentual, convertido para absoluto",
    originalValue := some r.value,
    correctedValue := some ((pyround (r.value * wbcVal / 100) : ℤ) : ℚ),
    details := [("percentage", r.value), ("wbc", wbcVal),
                ("absolute", ((pyround (r.value * wbcVal / 100) : ℤ) : ℚ))] }

/-- Rule C: `_check_wbc_percentages`. -/
def checkWbcPercentages (p : List ResultRow) : List ValidationFlag :=
  match getCode p "WBC" with
  | none => []
  | some wbc =>
    if wbc.value < 1000 then []
    else
      let dr := diffResults p
      if dr.length < 2 then []
      else
        let allSmall := dr.all (fun r => decide (r.value < 100))
        let total : ℚ := (dr.map (fun r => r.value)).sum
        if allSmall && decide (50 < total) && decide (total < 110) then
          dr.map (pctFlag wbc.value)
        else []

/-- `order_by('-exam_date')` comparison. -/
def dateDesc (a b : ExamRow) : Prop := b.examDate ≤ a.examDate

instance : DecidableRel dateDesc := fun a b => by unfold dateDesc; infer_instance

/-- The default `Exam` ordering `['-exam_date', '-uploaded_at']`. -/
def recencyOrder (a b : ExamRow) : Prop :=
  b.examDate < a.examDate ∨ (a.examDate = b.examDate ∧ b.uploadedAt ≤ a.uploadedAt)

instance : DecidableRel recencyOrder := fun a b => by unfold recencyOrder; infer_instance

/-- The queryset of `_check_duplicate_exam`: the subject's completed exams
other than the current one, most recent first, limited to 10. -/
def previousExams (db : DB) (exam : ExamRow) : List ExamRow :=
  ((db.examsTable.filter (fun e =>
      decide (e.userId = exam.userId ∧ e.status = .completed ∧ e.id ≠ exam.id))).insertionSort
    dateDesc).take 10

/-- Biomarker codes present in both panels (in first-panel order). -/
def commonCodes (p q : List ResultRow) : List String :=
  (p.map (fun r => r.code)).filter (fun c => (getCode q c).isSome)

/-- Number of common codes whose two values are exactly equal. -/
def exactMatches (p q : List ResultRow) : Nat :=
  (commonCodes p q).countP (fun c =>
    match getCode p c, getCode q c with
    | some a, some b => decide (a.value = b.value)
    | _, _ => false)

/-- The loop body of `_check_duplicate_exam` for one prior exam. -/
def dupFlagFor (db : DB) (p : List ResultRow) (pe : ExamRow) : Option ValidationFlag :=
  let prevResults := byCode (resultsFor db pe.id)
  let common := commonCodes p prevResults
  if common.length < 5 then none
  else
    let matched := exactMatches p prevResults
    let matchPct := (matched : ℚ) / (common.length : ℚ) * 100
    if matchPct > 80 then
      some { examResultId := none, biomarkerCode := "EXAM",
             severity := .warning, category := .duplicateExam,
             message := "Possivel duplicata de exame anterior",
             details := [("duplicate_exam_id", (pe.id : ℚ)),
                         ("match_pct", matchPct),
                         ("exact_matches", (matched : ℚ)),
                         ("total_compared", (common.length : ℚ))] }
    else none

/-- Rule D: `_check_duplicate_exam`. -/
def checkDuplicateExam (db : DB) (exam : ExamRow) : List ValidationFlag :=
  (previousExams db exam).filterMap (dupFlagFor db (resultsByCode db exam))

/-- `.filter(user, status='completed', exam_date__lt=...).first()` under the
model's default ordering: the most recent strictly earlier completed exam. -/
def mostRecentPrior (db : DB) (exam : ExamRow) : Option ExamRow :=
  ((db.examsTable.filter (fun e =>
      decide (e.userId = exam.userId ∧ e.status = .completed ∧
        e.examDate < exam.examDate))).insertionSort recencyOrder).head?

/-- The loop body of `_check_historical_consistency` for one current row. -/
def histRowFlag (prevResults : List ResultRow) (prevDate : ℤ) (r : ResultRow) :
    Option ValidationFlag :=
  if r.code ∈ volatileCodes then none
  else
    match getCode prevResults r.code with
    | none => none
    | some pr =>
      if pr.value = 0 then none
      else
        let changePct := |r.value - pr.value| / pr.value * 100
        if changePct > 200 then
          some { examResultId := some r.id, biomarkerCode := r.code,
                 severity := .warning, category := .historical,
                 message := r.code ++ " mudou mais de 200 por cento desde o exame anterior",
                 details := [("previous_value", pr.value),
                             ("current_value", r.value),
                             ("change_pct", changePct),
                             ("previous_exam_date", (prevDate : ℚ))] }
        else none

/-- Rule E: `_check_historical_consistency`. -/
def checkHistoricalConsistency (db : DB) (exam : ExamRow) : List ValidationFlag :=
  match mostRecentPrior db exam with
  | none => []
  | some prevExam =>
    (resultsByCode db exam).filterMap
      (histRowFlag (byCode (resultsFor db prevExam.id)) prevExam.examDate)

/-- `validate_exam`: run all validation rules, concatenating their flags. -/
def validateExam (db : DB) (exam : ExamRow) : List ValidationFlag :=
  let p := resultsByCode db exam
  checkPhysiologicalRanges p ++ checkLipidFormula p ++ checkWbcSum p
    ++ checkWbcPercentages p ++ checkDuplicateExam db exam
    ++ checkHistoricalConsistency db exam

/-- `save_validation_flags`: replace the stored flags of this exam. -/
def saveValidationFlags (db : DB) (exam : ExamRow) (flags : List ValidationFlag) : DB :=
  { db with flagsTable :=
      db.flagsTable.filter (fun ef => decide (ef.1 ≠ exam.id))
        ++ flags.map (fun f => (exam.id, f)) }

/-- One full detection-and-persist run: `validate_exam` then
`save_validation_flags`. -/
def validateAndSave (db : DB) (exam : ExamRow) : List ValidationFlag × DB :=
  let flags := validateExam db exam
  (flags, saveValidationFlags db exam flags)

/-- The value-overwrite loop of `apply_auto_corrections` (Python truthiness
of `flag.exam_result_id` makes id 0 skip). -/
def applyValueCorrections (db : DB) (flags : List ValidationFlag) : DB :=
  flags.foldl (fun acc f =>
    match f.severity, f.correctedValue, f.examResultId with
    | .autoCorrected, some cv, some rid =>
      if rid = 0 then acc
      else { acc with resultsTable :=
               acc.resultsTable.map (fun r => if r.id = rid then { r with value := cv } else r) }
    | _, _, _ => acc) db

/-- `_estimate_baso_if_missing`: possibly creates a BASO result row and
returns the info flag appended to the flag list. -/
def estimateBasoIfMissing (db : DB) (exam : ExamRow) : DB × Option ValidationFlag :=
  let p := resultsByCode db exam
  if (getCode p "BASO").isSome then (db, none)
  else
    match getCode p "WBC" with
    | none => (db, none)
    | some wbc =>
      let available := wbcDiffCodes.filterMap (getCode p)
      if available.length < 4 then (db, none)
      else
        let componentSum := (available.map (fun r => r.value)).sum
        let basoEstimated := max 0 (wbc.value - componentSum)
        if "BASO" ∈ db.catalogCodes then
          ({ db with
              resultsTable := db.resultsTable ++
                [{ id := db.nextResultId, examId := exam.id, code := "BASO",
                   value := ((pyround basoEstimated : ℤ) : ℚ) }],
              nextResultId := db.nextResultId + 1 },
           some { examResultId := some db.nextResultId, biomarkerCode := "BASO",
                  severity := .info, category := .crossBiomarker,
                  message := "BASO estimado a partir de WBC menos componentes",
                  correctedValue := some ((pyround basoEstimated : ℤ) : ℚ) })
        else (db, none)

/-- `apply_auto_corrections`: overwrite auto-corrected values, then run the
BASO estimation, which may append one flag. -/
def applyAutoCorrections (db : DB) (exam : ExamRow) (flags : List ValidationFlag) :
    DB × List ValidationFlag :=
  let db1 := applyValueCorrections db flags
  let r := estimateBasoIfMissing db1 exam
  (r.1, flags ++ r.2.toList)

/-! ### Raw-value model

`ExamResult.value` is a `DecimalField`, but the extraction step receives
arbitrary items; `process_exam` (`ai_service.py`) converts each item's
value with `Decimal(str(item['value']))` and *skips the item* when the
conversion raises.  The validation layers themselves perform no such
handling: a non-numeric value reaching `float(result.value)` would
propagate an exception.  `RawValue` makes "not parseable as a number"
representable, and the `Except`-valued variants model Python exception
propagation. -/

/-- A value as handed to a numeric conversion: either a number or an
unparseable token. -/
inductive RawValue where
  | num (q : ℚ)
  | malformed (s : String)
deriving DecidableEq, Repr

/-- A result row whose value may be unparseable. -/
structure RawResultRow where
  id : Nat
  code : String
  rawValue : RawValue
deriving DecidableEq, Repr

/-- `float(value)` on a raw value: raises on an unparseable token. -/
def toFloat : RawValue → Except String ℚ
  | .num q => .ok q
  | .malformed _ => .error "valor invalido"

/-- `_check_physiological_ranges` on raw rows, with Python exception
propagation: the first unparseable value of a bounded code aborts the
layer (codes without a bounds entry are skipped before conversion). -/
def checkPhysiologicalRangesRaw : List RawResultRow → Except String (List ValidationFlag)
  | [] => .ok []
  | r :: rest =>
    match physiologicalLimits r.code with
    | none => checkPhysiologicalRangesRaw rest
    | some (lo, hi) =>
      match toFloat r.rawValue with
      | .error e => .error e
      | .ok val =>
        match checkPhysiologicalRangesRaw rest with
        | .error e => .error e
        | .ok flags =>
          .ok (if val < lo ∨ val > hi then physFlag r.id r.code val lo hi :: flags
               else flags)

/-- The value-parsing part of the result-saving loop of `process_exam`
(`ai_service.py`): an item whose value fails `Decimal` conversion is
logged and skipped, the others are saved as result rows.  Catalog
matching and upsert details are not modelled; ids are taken as given. -/
def savedRows (examId : Nat) (items : List RawResultRow) : List ResultRow :=
  items.filterMap fun it =>
    match it.rawValue with
    | .num q => some { id := it.id, examId := examId, code := it.code, value := q }
    | .malformed _ => none

/-- View a stored (hence numeric) result row as a raw row. -/
def toRawRow (r : ResultRow) : RawResultRow :=
  { id := r.id, code := r.code, rawValue := .num r.value }

/-! ### Checked-division variants

Each detection layer that divides is replayed with a division operator
that faults on a zero divisor; proving these variants total and equal to
the originals shows every ratio in the source is guarded. -/

/-- Division that faults on a zero divisor. -/
def divE (a b : ℚ) : Except String ℚ :=
  if b = 0 then .error "divisao por zero" else .ok (a / b)

/-- `_check_lipid_formula` with checked division. -/
def checkLipidFormulaE (p : List ResultRow) : Except String (List ValidationFlag) :=
  match getCode p "CT", getCode p "HDL", getCode p "LDL", getCode p "VLDL" with
  | some ct, some hdl, some ldl, some vldl =>
    let expected := hdl.value + ldl.value + vldl.value
    let actual := ct.value
    if expected ≤ 0 then .ok []
    else
      match divE |actual - expected| expected with
      | .error e => .error e
      | .ok d =>
        if d * 100 > 15 then
          .ok [{ examResultId := some ct.id, biomarkerCode := "CT",
                 severity := .warning, category := .crossBiomarker,
                 message := "CT difere da formula HDL+LDL+VLDL",
                 details := [("expected", expected), ("actual", actual),
                             ("deviation_pct", d * 100)] }]
        else .ok []
  | _, _, _, _ => .ok []

/-- `_check_wbc_sum` with checked division. -/
def checkWbcSumE (p : List ResultRow) : Except String (List ValidationFlag) :=
  match getCode p "WBC" with
  | none => .ok []
  | some wbc =>
    if (wbcAvailable p).length < 3 then .ok []
    else
      let componentSum := ((wbcAvailable p).map (fun r => r.value)).sum
      let wbcVal := wbc.value
      if wbcVal ≤ 0 then .ok []
      else
        match divE |wbcVal - componentSum| wbcVal with
        | .error e => .error e
        | .ok d =>
          if d * 100 > 10 then
            .ok [{ examResultId := some wbc.id, biomarkerCode := "WBC",
                   severity := .warning, category := .crossBiomarker,
                   message := "WBC difere da soma dos componentes",
                   details := [("wbc", wbcVal), ("component_sum", componentSum)] }]
          else .ok []

/-- `filterMap` in the `Except` monad, stopping at the first fault. -/
def filterMapE (g : α → Except String (Option β)) : List α → Except String (List β)
  | [] => .ok []
  | a :: rest =>
    match g a with
    | .error e => .error e
    | .ok o =>
      match filterMapE g rest with
      | .error e => .error e
      | .ok bs =>
        .ok (match o with
             | some b => b :: bs
             | none => bs)

/-- The historical-consistency loop body with checked division. -/
def histRowFlagE (prevResults : List ResultRow) (prevDate : ℤ) (r : ResultRow) :
    Except String (Option ValidationFlag) :=
  if r.code ∈ volatileCodes then .ok none
  else
    match getCode prevResults r.code with
    | none => .ok none
    | some pr =>
      if pr.value = 0 then .ok none
      else
        match divE |r.value - pr.value| pr.value with
        | .error e => .error e
        | .ok d =>
          if d * 100 > 200 then
            .ok (some { examResultId := some r.id, biomarkerCode := r.code,
                        severity := .warning, category := .historical,
                        message := r.code ++ " mudou mais de 200 por cento desde o exame anterior",
                        details := [("previous_value", pr.value),
                                    ("current_value", r.value),
                                    ("change_pct", d * 100),
                                    ("previous_exam_date", (prevDate : ℚ))] })
          else .ok none

/-- `_check_historical_consistency` with checked division. -/
def checkHistoricalConsistencyE (db : DB) (exam : ExamRow) :
    Except String (List ValidationFlag) :=
  match mostRecentPrior db exam with
  | none => .ok []
  | some prevExam =>
    filterMapE (histRowFlagE (byCode (resultsFor db prevExam.id)) prevExam.examDate)
      (resultsByCode db exam)

/-- The duplicate-detection loop body with checked division. -/
def dupFlagForE (db : DB) (p : List ResultRow) (pe : ExamRow) :
    Except String (Option ValidationFlag) :=
  let prevResults := byCode (resultsFor db pe.id)
  let common := commonCodes p prevResults
  if common.length < 5 then .ok none
  else
    let matched := exactMatches p prevResults
    match divE (matched : ℚ) (common.length : ℚ) with
    | .error e => .error e
    | .ok d =>
      if d * 100 > 80 then
        .ok (some { examResultId := none, biomarkerCode := "EXAM",
                    severity := .warning, category := .duplicateExam,
                    message := "Possivel duplicata de exame anterior",
                    details := [("duplicate_exam_id", (pe.id : ℚ)),
                                ("match_pct", d * 100),
                                ("exact_matches", (matched : ℚ)),
                                ("total_compared", (common.length : ℚ))] })
      else .ok none

/-- `_check_duplicate_exam` with checked division. -/
def checkDuplicateExamE (db : DB) (exam : ExamRow) :
    Except String (List ValidationFlag) :=
  filterMapE (dupFlagForE db (resultsByCode db exam)) (previousExams db exam)

/-! ### Helper lemmas -/

theorem getCode_code {p : List ResultRow} {c : String} {r : ResultRow}
    (h : getCode p c = some r) : r.code = c := by
  have h2 := List.find?_some h
  simpa using h2

theorem codes_filterMap_getCode (p : List ResultRow) (l : List String) :
    (l.filterMap (getCode p)).map (fun r => r.code) =
      l.filter (fun c => (getCode p c).isSome) := by
  induction l with
  | nil => rfl
  | cons c cs ih =>
    cases h : getCode p c with
    | none => simp [List.filterMap_cons, h, List.filter_cons, ih]
    | some r => simp [List.filterMap_cons, h, List.filter_cons, ih, getCode_code h]

theorem length_filterMap_eq_countP {α β : Type} (g : α → Option β) (l : List α) :
    (l.filterMap g).length = l.countP (fun a => (g a).isSome) := by
  induction l with
  | nil => rfl
  | cons a rest ih =>
    cases h : g a <;> simp [List.filterMap_cons, h, List.countP_cons, ih]

theorem countP_filterMap_code (p : List ResultRow) (g : ResultRow → Option ValidationFlag)
    (hg : ∀ r f, g r = some f → f.biomarkerCode = r.code) (c : String) :
    (p.filterMap g).countP (fun f => f.biomarkerCode == c) =
      p.countP (fun r => r.code == c && (g r).isSome) := by
  induction p with
  | nil => rfl
  | cons r rest ih =>
    cases h : g r with
    | none => simp [List.filterMap_cons, h, List.countP_cons, ih]
    | some f =>
      have hc := hg r f h
      simp [List.filterMap_cons, h, List.countP_cons, ih, hc]

theorem countP_and_code (p : List ResultRow) (r : ResultRow) (X : ResultRow → Bool)
    (hr : r ∈ p) (hnd : (p.map (fun a => a.code)).Nodup) :
    p.countP (fun a => a.code == r.code && X a) = if X r then 1 else 0 := by
  induction p with
  | nil => cases hr
  | cons a rest ih =>
    rw [List.map_cons, List.nodup_cons] at hnd
    rcases List.mem_cons.1 hr with heq | hmem
    · subst heq
      have hz : rest.countP (fun a => a.code == r.code && X a) = 0 := by
        rw [List.countP_eq_zero]
        intro b hb
        have hbc : b.code ≠ r.code := by
          intro hcontra
          exact hnd.1 (hcontra ▸ List.mem_map_of_mem (fun a => a.code) hb)
        simp [hbc]
      simp [List.countP_cons, hz]
    · have hac : a.code ≠ r.code := by
        intro hcontra
        exact hnd.1 (by
          rw [hcontra]
          exact List.mem_map_of_mem (fun a => a.code) hmem)
      simp [List.countP_cons, ih hmem hnd.2, hac]

theorem dictInsert_codes (acc : List ResultRow) (r : ResultRow) :
    (dictInsert acc r).map (fun a => a.code) =
      if acc.any (fun a => a.code == r.code)
      then acc.map (fun a => a.code)
      else acc.map (fun a => a.code) ++ [r.code] := by
  unfold dictInsert
  by_cases h : acc.any (fun a => a.code == r.code)
  · rw [if_pos h, if_pos h, List.map_map]
    apply List.map_congr_left
    intro a _
    by_cases h2 : a.code = r.code <;> simp [h2]
  · rw [if_neg h, if_neg h]
    simp

theorem byCode_codes_nodup_aux (rs : List ResultRow) :
    ∀ acc : List ResultRow, (acc.map (fun a => a.code)).Nodup →
      ((rs.foldl dictInsert acc).map (fun a => a.code)).Nodup := by
  induction rs with
  | nil => intro acc h; simpa using h
  | cons r rest ih =>
    intro acc h
    rw [List.foldl_cons]
    apply ih
    rw [dictInsert_codes]
    by_cases hc : acc.any (fun a => a.code == r.code)
    · rw [if_pos hc]; exact h
    · rw [if_neg hc]
      have hnotmem : r.code ∉ acc.map (fun a => a.code) := by
        intro hmem
        rcases List.mem_map.1 hmem with ⟨a, ha, hac⟩
        exact hc (List.any_eq_true.2 ⟨a, ha, by simp [hac]⟩)
      simp [List.nodup_append, h, hnotmem]

theorem byCode_codes_nodup (rs : List ResultRow) :
    ((byCode rs).map (fun a => a.code)).Nodup :=
  byCode_codes_nodup_aux rs [] (by simp)

theorem filterMapE_ok {α β : Type} (g : α → Except String (Option β))
    (g0 : α → Option β) (l : List α) (h : ∀ a ∈ l, g a = .ok (g0 a)) :
    filterMapE g l = .ok (l.filterMap g0) := by
  induction l with
  | nil => rfl
  | cons a rest ih =>
    rw [filterMapE, h a (List.mem_cons_self a rest),
      ih (fun b hb => h b (List.mem_cons_of_mem a hb)), List.filterMap_cons]
    cases g0 a <;> rfl

theorem previousExams_ids_nodup (db : DB) (exam : ExamRow)
    (h : (db.examsTable.map (fun e => e.id)).Nodup) :
    ((previousExams db exam).map (fun e => e.id)).Nodup := by
  unfold previousExams
  set f : ExamRow → Bool := fun e =>
    decide (e.userId = exam.userId ∧ e.status = .completed ∧ e.id ≠ exam.id) with hf
  have h1 : ((db.examsTable.filter f).map (fun e => e.id)).Nodup :=
    ((List.filter_sublist db.examsTable).map (fun e : ExamRow => e.id)).nodup h
  have h2 : (((db.examsTable.filter f).insertionSort dateDesc).map
      (fun e => e.id)).Nodup :=
    (((List.perm_insertionSort dateDesc (db.examsTable.filter f)).map
      (fun e : ExamRow => e.id)).nodup_iff).2 h1
  exact ((List.take_sublist 10 _).map (fun e : ExamRow => e.id)).nodup h2

theorem mem_previousExams {db : DB} {exam : ExamRow} {pe : ExamRow}
    (h : pe ∈ previousExams db exam) :
    pe.userId = exam.userId ∧ pe.status = .completed ∧ pe.id ≠ exam.id := by
  unfold previousExams at h
  have h1 := List.mem_of_mem_take h
  have h2 := (List.perm_insertionSort dateDesc _).mem_iff.1 h1
  have h3 := List.of_mem_filter h2
  simpa using h3

theorem histRowFlagE_ok (prevResults : List ResultRow) (prevDate : ℤ) (r : ResultRow) :
    histRowFlagE prevResults prevDate r = .ok (histRowFlag prevResults prevDate r) := by
  unfold histRowFlagE histRowFlag
  by_cases hv : r.code ∈ volatileCodes
  · simp [hv]
  · simp only [hv, if_false]
    cases h : getCode prevResults r.code with
    | none => rfl
    | some pr =>
      by_cases hz : pr.value = 0
      · simp [hz]
      · simp only [hz, if_false, divE, if_neg hz]
        split <;> rfl

theorem dupFlagForE_ok (db : DB) (p : List ResultRow) (pe : ExamRow) :
    dupFlagForE db p pe = .ok (dupFlagFor db p pe) := by
  unfold dupFlagForE dupFlagFor
  by_cases h5 : (commonCodes p (byCode (resultsFor db pe.id))).length < 5
  · simp [h5]
  · have hne : ((commonCodes p (byCode (resultsFor db pe.id))).length : ℚ) ≠ 0 := by
      have hn : (commonCodes p (byCode (resultsFor db pe.id))).length ≠ 0 := by omega
      exact_mod_cast hn
    simp only [h5, if_false, divE, if_neg hne]
    split <;> rfl

theorem checkLipidFormulaE_ok (p : List ResultRow) :
    checkLipidFormulaE p = .ok (checkLipidFormula p) := by
  unfold checkLipidFormulaE checkLipidFormula
  cases getCode p "CT" with
  | none => rfl
  | some ct =>
    cases getCode p "HDL" with
    | none => rfl
    | some hdl =>
      cases getCode p "LDL" with
      | none => rfl
      | some ldl =>
        cases getCode p "VLDL" with
        | none => rfl
        | some vldl =>
          by_cases he : hdl.value + ldl.value + vldl.value ≤ 0
          · simp [he]
          · have hne : hdl.value + ldl.value + vldl.value ≠ 0 := by
              intro hz; exact he (le_of_eq hz)
            simp only [he, if_false, divE, if_neg hne]
            split <;> rfl

theorem checkWbcSumE_ok (p : List ResultRow) :
    checkWbcSumE p = .ok (checkWbcSum p) := by
  unfold checkWbcSumE checkWbcSum
  cases getCode p "WBC" with
  | none => rfl
  | some wbc =>
    by_cases h3 : (wbcAvailable p).length < 3
    · simp [h3]
    · by_cases hz : wbc.value ≤ 0
      · simp [h3, hz]
      · have hne : wbc.value ≠ 0 := by
          intro h0; exact hz (le_of_eq h0)
        simp only [h3, hz, if_false, divE, if_neg hne]
        split <;> rfl

theorem checkHistoricalConsistencyE_ok (db : DB) (exam : ExamRow) :
    checkHistoricalConsistencyE db exam = .ok (checkHistoricalConsistency db exam) := by
  unfold checkHistoricalConsistencyE checkHistoricalConsistency
  cases mostRecentPrior db exam with
  | none => rfl
  | some prevExam =>
    exact filterMapE_ok _ _ _ (fun r _ => histRowFlagE_ok _ _ r)

theorem checkDuplicateExamE_ok (db : DB) (exam : ExamRow) :
    checkDuplicateExamE db exam = .ok (checkDuplicateExam db exam) := by
  unfold checkDuplicateExamE checkDuplicateExam
  exact filterMapE_ok _ _ _ (fun pe _ => dupFlagForE_ok db _ pe)

/-- C8: running `validate_exam` followed by `save_validation_flags` twice on
an unchanged panel and history yields the same flag list both times; the run
itself changes neither the exams nor the measurements, so the second run
sees the same inputs as the first (`validate_exam` is read-only; persisting
flags replaces only the flag store). -/
theorem validate_idempotent (db : DB) (exam : ExamRow) :
    (validateAndSave (validateAndSave db exam).2 exam).1 = (validateAndSave db exam).1
    ∧ (validateAndSave db exam).2.examsTable = db.examsTable
    ∧ (validateAndSave db exam).2.resultsTable = db.resultsTable :=
  ⟨rfl, rfl, rfl⟩

/-- C10: every ratio computed by the detection layers is guarded: replaying
the lipid check, the WBC-sum check, the historical check and the duplicate
check with a division operator that faults on a zero divisor never faults
and produces exactly the original flags. -/
theorem division_guards (db : DB) (exam : ExamRow) (p : List ResultRow) :
    checkLipidFormulaE p = .ok (checkLipidFormula p)
    ∧ checkWbcSumE p = .ok (checkWbcSum p)
    ∧ checkHistoricalConsistencyE db exam = .ok (checkHistoricalConsistency db exam)
    ∧ checkDuplicateExamE db exam = .ok (checkDuplicateExam db exam) :=
  ⟨checkLipidFormulaE_ok p, checkWbcSumE_ok p,
   checkHistoricalConsistencyE_ok db exam, checkDuplicateExamE_ok db exam⟩

theorem checkPhysRaw_numeric (l : List ResultRow) :
    checkPhysiologicalRangesRaw (l.map toRawRow) = .ok (checkPhysiologicalRanges l) := by
  induction l with
  | nil => rfl
  | cons r rest ih =>
    rw [List.map_cons, checkPhysiologicalRangesRaw]
    cases h : physiologicalLimits r.code with
    | none =>
      simp [toRawRow, h, ih, checkPhysiologicalRanges, physRowFlag, List.filterMap_cons]
    | some lohi =>
      obtain ⟨lo, hi⟩ := lohi
      simp only [toRawRow, h, toFloat, ih, checkPhysiologicalRanges, physRowFlag,
        List.filterMap_cons]
      split <;> simp_all [checkPhysiologicalRanges, physRowFlag]

theorem checkPhysRaw_error_iff (rp : List RawResultRow) :
    (∃ e, checkPhysiologicalRangesRaw rp = .error e) ↔
      ∃ r ∈ rp, (physiologicalLimits r.code).isSome ∧ ∃ s, r.rawValue = .malformed s := by
  induction rp with
  | nil => simp [checkPhysiologicalRangesRaw]
  | cons r rest ih =>
    rw [checkPhysiologicalRangesRaw]
    cases h : physiologicalLimits r.code with
    | none =>
      simp only [List.mem_cons]
      constructor
      · intro he
        rcases ih.1 he with ⟨b, hb, hprop⟩
        exact ⟨b, Or.inr hb, hprop⟩
      · rintro ⟨b, hb | hb, hprop⟩
        · rw [hb, h] at hprop
          simp at hprop
        · exact ih.2 ⟨b, hb, hprop⟩
    | some lohi =>
      obtain ⟨lo, hi⟩ := lohi
      cases hv : r.rawValue with
      | malformed s =>
        simp only [toFloat, List.mem_cons]
        constructor
        · intro _
          exact ⟨r, Or.inl rfl, by simp [h], ⟨s, hv⟩⟩
        · intro _
          exact ⟨"valor invalido", rfl⟩
      | num q =>
        simp only [toFloat, List.mem_cons]
        cases hrec : checkPhysiologicalRangesRaw rest with
        | error e =>
          constructor
          · intro _
            rcases ih.1 ⟨e, hrec⟩ with ⟨b, hb, hprop⟩
            exact ⟨b, Or.inr hb, hprop⟩
          · intro _
            exact ⟨e, rfl⟩
        | ok flags =>
          constructor
          · rintro ⟨e, he⟩
            split at he <;> simp_all
          · rintro ⟨b, hb | hb, hprop⟩
            · rw [hb, hv] at hprop
              rcases hprop.2 with ⟨s, hs⟩
              simp at hs
            · rcases ih.2 ⟨b, hb, hprop⟩ with ⟨e, he⟩
              rw [hrec] at he
              simp at he

/-- C9 (amended): the skip-malformed-value behaviour lives in the
result-saving step of `process_exam`, not in the validation layers: an
item whose value fails numeric parsing is dropped before validation, so
the physiological layer — run on saved rows — never faults; but the layer
itself has no per-measurement handling and faults (aborting the whole
run, flagging nothing) exactly when handed a panel containing an
unparseable value whose code has a bounds entry. -/
theorem malformed_value_handling :
    (∀ rp : List RawResultRow,
      (∃ e, checkPhysiologicalRangesRaw rp = .error e) ↔
        ∃ r ∈ rp, (physiologicalLimits r.code).isSome ∧ ∃ s, r.rawValue = .malformed s)
    ∧ ∀ (examId : Nat) (items : List RawResultRow),
        checkPhysiologicalRangesRaw ((savedRows examId items).map toRawRow) =
          .ok (checkPhysiologicalRanges (savedRows examId items)) :=
  ⟨checkPhysRaw_error_iff, fun _ _ => checkPhysRaw_numeric _⟩

/-- A panel holding an unparseable HGB value next to an out-of-range HCT. -/
def rawPanelMalformed : List RawResultRow :=
  [{ id := 1, code := "HGB", rawValue := .malformed "abc" },
   { id := 2, code := "HCT", rawValue := .num 200 }]

/-- C9 counterexample: on a panel with an unparseable HGB value, the
physiological layer aborts with an exception and emits no flags at all —
it does not skip the measurement and flag the remaining HCT=200, which in
isolation would produce a flag. -/
theorem malformed_value_aborts :
    checkPhysiologicalRangesRaw rawPanelMalformed = .error "valor invalido"
    ∧ checkPhysiologicalRanges [{ id := 2, examId := 1, code := "HCT", value := 200 }] =
        [physFlag 2 "HCT" 200 15 70] :=
  ⟨rfl, rfl⟩

/-- Lipid rows of the spec's example with CT=200. -/
def lipidRows200 : List ResultRow :=
  [⟨1, 1, "CT", 200⟩, ⟨2, 1, "HDL", 50⟩, ⟨3, 1, "LDL", 100⟩, ⟨4, 1, "VLDL", 20⟩]

/-- Lipid rows of the spec's example with CT=190. -/
def lipidRows190 : List ResultRow :=
  [⟨1, 1, "CT", 190⟩, ⟨2, 1, "HDL", 50⟩, ⟨3, 1, "LDL", 100⟩, ⟨4, 1, "VLDL", 20⟩]

/-- C3: the lipid identity check emits exactly one flag — severity warning,
category cross_biomarker, no measurement mutated — iff CT, HDL, LDL and
VLDL are all present, expected = HDL+LDL+VLDL is positive, and the
deviation exceeds 15%.  With HDL=50, LDL=100, VLDL=20: CT=200 produces one
flag, CT=190 none. -/
theorem lipid_identity_check (p : List ResultRow) :
    (checkLipidFormula p ≠ [] ↔
      ∃ ct hdl ldl vldl, getCode p "CT" = some ct ∧ getCode p "HDL" = some hdl ∧
        getCode p "LDL" = some ldl ∧ getCode p "VLDL" = some vldl ∧
        0 < hdl.value + ldl.value + vldl.value ∧
        |ct.value - (hdl.value + ldl.value + vldl.value)| /
          (hdl.value + ldl.value + vldl.value) * 100 > 15)
    ∧ (checkLipidFormula p).length ≤ 1
    ∧ (∀ f ∈ checkLipidFormula p,
        f.severity = .warning ∧ f.category = .crossBiomarker ∧ f.biomarkerCode = "CT")
    ∧ (checkLipidFormula lipidRows200).length = 1
    ∧ checkLipidFormula lipidRows190 = [] := by
  refine ⟨?_, ?_, ?_, ?_, ?_⟩
  · cases hct : getCode p "CT" with
    | none => simp [checkLipidFormula, hct]
    | some ct =>
      cases hhdl : getCode p "HDL" with
      | none => simp [checkLipidFormula, hct, hhdl]
      | some hdl =>
        cases hldl : getCode p "LDL" with
        | none => simp [checkLipidFormula, hct, hhdl, hldl]
        | some ldl =>
          cases hvldl : getCode p "VLDL" with
          | none => simp [checkLipidFormula, hct, hhdl, hldl, hvldl]
          | some vldl =>
            by_cases he : hdl.value + ldl.value + vldl.value ≤ 0
            · simp only [checkLipidFormula, hct, hhdl, hldl, hvldl, if_pos he]
              simp only [ne_eq, not_true_eq_false, false_iff, Option.some.injEq]
              rintro ⟨c, d, l, v, h1, h2, h3, h4, h5, -⟩
              subst h1; subst h2; subst h3; subst h4
              exact absurd h5 (not_lt.2 he)
            · by_cases hd : |ct.value - (hdl.value + ldl.value + vldl.value)| /
                  (hdl.value + ldl.value + vldl.value) * 100 > 15
              · simp only [checkLipidFormula, hct, hhdl, hldl, hvldl, if_neg he, if_pos hd]
                simp only [ne_eq, Option.some.injEq]
                constructor
                · intro _
                  exact ⟨ct, hdl, ldl, vldl, rfl, rfl, rfl, rfl, not_le.1 he, hd⟩
                · intro _
                  simp
              · simp only [checkLipidFormula, hct, hhdl, hldl, hvldl, if_neg he, if_neg hd]
                simp only [ne_eq, not_true_eq_false, false_iff, Option.some.injEq]
                rintro ⟨c, d, l, v, h1, h2, h3, h4, -, h6⟩
                subst h1; subst h2; subst h3; subst h4
                exact absurd h6 hd
  · cases hct : getCode p "CT" with
    | none => simp [checkLipidFormula, hct]
    | some ct =>
      cases hhdl : getCode p "HDL" with
      | none => simp [checkLipidFormula, hct, hhdl]
      | some hdl =>
        cases hldl : getCode p "LDL" with
        | none => simp [checkLipidFormula, hct, hhdl, hldl]
        | some ldl =>
          cases hvldl : getCode p "VLDL" with
          | none => simp [checkLipidFormula, hct, hhdl, hldl, hvldl]
          | some vldl =>
            simp only [checkLipidFormula, hct, hhdl, hldl, hvldl]
            split_ifs <;> simp
  · intro f hf
    cases hct : getCode p "CT" with
    | none => rw [checkLipidFormula, hct] at hf; simp at hf
    | some ct =>
      cases hhdl : getCode p "HDL" with
      | none => rw [checkLipidFormula, hct, hhdl] at hf; simp at hf
      | some hdl =>
        cases hldl : getCode p "LDL" with
        | none => rw [checkLipidFormula, hct, hhdl, hldl] at hf; simp at hf
        | some ldl =>
          cases hvldl : getCode p "VLDL" with
          | none => rw [checkLipidFormula, hct, hhdl, hldl, hvldl] at hf; simp at hf
          | some vldl =>
            rw [checkLipidFormula, hct, hhdl, hldl, hvldl] at hf
            simp only at hf
            split_ifs at hf <;> simp_all
  · have hct : getCode lipidRows200 "CT" = some ⟨1, 1, "CT", 200⟩ := rfl
    have hhdl : getCode lipidRows200 "HDL" = some ⟨2, 1, "HDL", 50⟩ := rfl
    have hldl : getCode lipidRows200 "LDL" = some ⟨3, 1, "LDL", 100⟩ := rfl
    have hvldl : getCode lipidRows200 "VLDL" = some ⟨4, 1, "VLDL", 20⟩ := rfl
    simp only [checkLipidFormula, hct, hhdl, hldl, hvldl]
    norm_num [abs_of_nonneg]
  · have hct : getCode lipidRows190 "CT" = some ⟨1, 1, "CT", 190⟩ := rfl
    have hhdl : getCode lipidRows190 "HDL" = some ⟨2, 1, "HDL", 50⟩ := rfl
    have hldl : getCode lipidRows190 "LDL" = some ⟨3, 1, "LDL", 100⟩ := rfl
    have hvldl : getCode lipidRows190 "VLDL" = some ⟨4, 1, "VLDL", 20⟩ := rfl
    simp only [checkLipidFormula, hct, hhdl, hldl, hvldl]
    norm_num [abs_of_nonneg]

/-- C5: the WBC differential-sum check emits exactly one flag — severity
warning, category cross_biomarker, tied to the WBC row, mutating nothing —
iff the WBC total is present, at least 3 of the 5 components are present,
and the relative deviation of the component sum from the total exceeds 10%
(with the source's guard skipping non-positive totals, for which the
deviation condition is itself unsatisfiable). -/
theorem wbc_sum_check (p : List ResultRow) :
    (checkWbcSum p ≠ [] ↔
      ∃ wbc, getCode p "WBC" = some wbc ∧ 3 ≤ (wbcAvailable p).length ∧
        |wbc.value - ((wbcAvailable p).map (fun r => r.value)).sum| /
          wbc.value * 100 > 10)
    ∧ (checkWbcSum p).length ≤ 1
    ∧ (∀ f ∈ checkWbcSum p,
        f.severity = .warning ∧ f.category = .crossBiomarker ∧ f.biomarkerCode = "WBC") := by
  have hguard : ∀ wbc : ResultRow, wbc.value ≤ 0 →
      ¬ (|wbc.value - ((wbcAvailable p).map (fun r => r.value)).sum| /
          wbc.value * 100 > 10) := by
    intro wbc hle
    rcases lt_or_eq_of_le hle with hlt | heq
    · have h1 : |wbc.value - ((wbcAvailable p).map (fun r => r.value)).sum| /
          wbc.value ≤ 0 :=
        div_nonpos_of_nonneg_of_nonpos (abs_nonneg _) hle
      have h2 : |wbc.value - ((wbcAvailable p).map (fun r => r.value)).sum| /
          wbc.value * 100 ≤ 0 :=
        mul_nonpos_iff.2 (Or.inr ⟨h1, by norm_num⟩)
      intro hgt
      linarith
    · rw [heq, div_zero, zero_mul]
      norm_num
  refine ⟨?_, ?_, ?_⟩
  · cases hwbc : getCode p "WBC" with
    | none => simp [checkWbcSum, hwbc]
    | some wbc =>
      by_cases h3 : (wbcAvailable p).length < 3
      · simp only [checkWbcSum, hwbc, if_pos h3]
        simp only [ne_eq, not_true_eq_false, false_iff, Option.some.injEq]
        rintro ⟨w, h1, h2, -⟩
        subst h1
        omega
      · by_cases hz : wbc.value ≤ 0
        · simp only [checkWbcSum, hwbc, if_neg h3, if_pos hz]
          simp only [ne_eq, not_true_eq_false, false_iff, Option.some.injEq]
          rintro ⟨w, h1, -, hgt⟩
          subst h1
          exact hguard wbc hz hgt
        · by_cases hd : |wbc.value - ((wbcAvailable p).map (fun r => r.value)).sum| /
              wbc.value * 100 > 10
          · simp only [checkWbcSum, hwbc, if_neg h3, if_neg hz, if_pos hd]
            simp only [ne_eq, Option.some.injEq]
            constructor
            · intro _
              exact ⟨wbc, rfl, by omega, hd⟩
            · intro _
              simp
          · simp only [checkWbcSum, hwbc, if_neg h3, if_neg hz, if_neg hd]
            simp only [ne_eq, not_true_eq_false, false_iff, Option.some.injEq]
            rintro ⟨w, h1, -, hgt⟩
            subst h1
            exact hd hgt
  · cases hwbc : getCode p "WBC" with
    | none => simp [checkWbcSum, hwbc]
    | some wbc =>
      simp only [checkWbcSum, hwbc]
      split_ifs <;> simp
  · intro f hf
    cases hwbc : getCode p "WBC" with
    | none => rw [checkWbcSum, hwbc] at hf; simp at hf
    | some wbc =>
      rw [checkWbcSum, hwbc] at hf
      simp only at hf
      split_ifs at hf <;> simp_all

theorem physRowFlag_code (a : ResultRow) (f : ValidationFlag)
    (h : physRowFlag a = some f) : f.biomarkerCode = a.code := by
  rw [physRowFlag] at h
  split at h
  · exact absurd h (by simp)
  · split at h
    · obtain rfl := Option.some.inj h
      rfl
    · exact absurd h (by simp)

/-- C4: for every measurement whose code has a bounds entry, the
physiological range check emits exactly one error/physiological flag iff
the value lies strictly outside the bounds (boundary values produce no
flag); codes without a table entry are skipped. -/
theorem physiological_range_check (p : List ResultRow)
    (hnd : (p.map (fun r => r.code)).Nodup) :
    (∀ f ∈ checkPhysiologicalRanges p, f.severity = .error ∧ f.category = .physiological)
    ∧ ∀ r ∈ p,
        (∀ lo hi, physiologicalLimits r.code = some (lo, hi) →
          (checkPhysiologicalRanges p).countP (fun f => f.biomarkerCode == r.code) =
            if r.value < lo ∨ r.value > hi then 1 else 0)
        ∧ (physiologicalLimits r.code = none →
          (checkPhysiologicalRanges p).countP (fun f => f.biomarkerCode == r.code) = 0) := by
  constructor
  · intro f hf
    rcases List.mem_filterMap.1 hf with ⟨r, _, hg⟩
    rw [physRowFlag] at hg
    split at hg
    · exact absurd hg (by simp)
    · split at hg
      · obtain rfl := Option.some.inj hg
        exact ⟨rfl, rfl⟩
      · exact absurd hg (by simp)
  · intro r hr
    have hcount := countP_filterMap_code p physRowFlag
      (fun a f hf => physRowFlag_code a f hf) r.code
    constructor
    · intro lo hi h
      rw [checkPhysiologicalRanges, hcount, countP_and_code p r _ hr hnd]
      by_cases hcond : r.value < lo ∨ r.value > hi <;>
        simp [physRowFlag, h, hcond]
    · intro h
      rw [checkPhysiologicalRanges, hcount, countP_and_code p r _ hr hnd]
      simp [physRowFlag, h]

/-- C4 witness: HGB with bounds (3,25): value 2.9 yields exactly one flag,
value 3.0 yields none. -/
theorem physiological_range_check_witness :
    (checkPhysiologicalRanges [⟨1, 1, "HGB", 29/10⟩]).countP
        (fun f => f.biomarkerCode == "HGB") = 1
    ∧ (checkPhysiologicalRanges [⟨1, 1, "HGB", 3⟩]).countP
        (fun f => f.biomarkerCode == "HGB") = 0 := by
  constructor
  · have h := ((physiological_range_check [⟨1, 1, "HGB", 29/10⟩] (by decide)).2
      ⟨1, 1, "HGB", 29/10⟩ (by simp)).1 3 25 (by decide)
    norm_num at h
    simpa using h
  · have h := ((physiological_range_check [⟨1, 1, "HGB", 3⟩] (by decide)).2
      ⟨1, 1, "HGB", 3⟩ (by simp)).1 3 25 (by decide)
    norm_num at h
    simpa using h

theorem diffResults_codes_nodup (p : List ResultRow) :
    ((diffResults p).map (fun r => r.code)).Nodup := by
  rw [diffResults, codes_filterMap_getCode]
  exact (by decide : wbcDiffCodes.Nodup).filter _

/-- C1: with WBC >= 1000 present, at least 2 of the 4 primary differential
codes present, every present differential value < 100 and their sum in
(50, 110), the percentage check emits exactly one auto_corrected /
wbc_percentage flag per present differential, with corrected value
round(value * wbc / 100); if any condition fails it emits nothing. -/
theorem wbc_percentage_detection (p : List ResultRow) :
    (∀ wbc, getCode p "WBC" = some wbc → 1000 ≤ wbc.value →
      2 ≤ (diffResults p).length →
      (∀ r ∈ diffResults p, r.value < 100) →
      50 < ((diffResults p).map (fun r => r.value)).sum →
      ((diffResults p).map (fun r => r.value)).sum < 110 →
      (checkWbcPercentages p).length = (diffResults p).length ∧
      ∀ r ∈ diffResults p,
        (checkWbcPercentages p).countP (fun f => f.biomarkerCode == r.code) = 1 ∧
        pctFlag wbc.value r ∈ checkWbcPercentages p ∧
        (pctFlag wbc.value r).severity = .autoCorrected ∧
        (pctFlag wbc.value r).category = .wbcPercentage ∧
        (pctFlag wbc.value r).correctedValue =
          some ((pyround (r.value * wbc.value / 100) : ℤ) : ℚ))
    ∧ ((∀ wbc, getCode p "WBC" = some wbc →
          wbc.value < 1000 ∨ (diffResults p).length < 2 ∨
          (∃ r ∈ diffResults p, 100 ≤ r.value) ∨
          ((diffResults p).map (fun r => r.value)).sum ≤ 50 ∨
          110 ≤ ((diffResults p).map (fun r => r.value)).sum) →
        checkWbcPercentages p = []) := by
  constructor
  · intro wbc hw h1000 hlen hall h50 h110
    have hcond : ((diffResults p).all (fun r => decide (r.value < 100))
        && decide (50 < ((diffResults p).map (fun r => r.value)).sum)
        && decide (((diffResults p).map (fun r => r.value)).sum < 110)) = true := by
      simp only [Bool.and_eq_true, List.all_eq_true, decide_eq_true_eq]
      exact ⟨⟨fun r hr => hall r hr, h50⟩, h110⟩
    have hred : checkWbcPercentages p = (diffResults p).map (pctFlag wbc.value) := by
      rw [checkWbcPercentages, hw]
      simp only [if_neg (not_lt.2 h1000), if_neg (not_lt.2 hlen), hcond, if_pos]
    refine ⟨by rw [hred, List.length_map], ?_⟩
    intro r hr
    refine ⟨?_, by rw [hred]; exact List.mem_map_of_mem _ hr, rfl, rfl, rfl⟩
    rw [hred, List.countP_map]
    have heq : ((fun f => f.biomarkerCode == r.code) ∘ pctFlag wbc.value) =
        (fun a => a.code == r.code && true) := by
      funext a
      simp [pctFlag, Function.comp]
    rw [heq, countP_and_code (diffResults p) r _ hr (diffResults_codes_nodup p)]
    rfl
  · intro h
    cases hw : getCode p "WBC" with
    | none => rw [checkWbcPercentages, hw]
    | some wbc =>
      rcases h wbc hw with h1 | h2 | ⟨r, hr, hge⟩ | h4 | h5
      · rw [checkWbcPercentages, hw]
        simp only [if_pos h1]
      all_goals by_cases hv : wbc.value < 1000
      case pos => rw [checkWbcPercentages, hw]; simp only [if_pos hv]
      case pos => rw [checkWbcPercentages, hw]; simp only [if_pos hv]
      case pos => rw [checkWbcPercentages, hw]; simp only [if_pos hv]
      case pos => rw [checkWbcPercentages, hw]; simp only [if_pos hv]
      · rw [checkWbcPercentages, hw]
        simp only [if_neg hv, if_pos h2]
      · rw [checkWbcPercentages, hw]
        have hallf : ((diffResults p).all (fun r => decide (r.value < 100))) = false := by
          cases hrb : (diffResults p).all (fun r => decide (r.value < 100))
          · rfl
          · have := List.all_eq_true.1 hrb r hr
            simp only [decide_eq_true_eq] at this
            exact absurd this (not_lt.2 hge)
        by_cases h2b : (diffResults p).length < 2
        · simp only [if_neg hv, if_pos h2b]
        · simp only [if_neg hv, if_neg h2b, hallf, Bool.false_and, Bool.if_false_left]
          simp
      · rw [checkWbcPercentages, hw]
        by_cases h2b : (diffResults p).length < 2
        · simp only [if_neg hv, if_pos h2b]
        · have hd : decide (50 < ((diffResults p).map (fun r => r.value)).sum) = false :=
            decide_eq_false (not_lt.2 h4)
          simp only [if_neg hv, if_neg h2b, hd, Bool.and_false, Bool.false_and]
          simp
      · rw [checkWbcPercentages, hw]
        by_cases h2b : (diffResults p).length < 2
        · simp only [if_neg hv, if_pos h2b]
        · have hd : decide (((diffResults p).map (fun r => r.value)).sum < 110) = false :=
            decide_eq_false (not_lt.2 h5)
          simp only [if_neg hv, if_neg h2b, hd, Bool.and_false]
          simp

/-- The spec example panel: WBC=8000 with NEUT=58, LYMPH=30, MONO=8, EOS=4. -/
def wbcPctPanel : List ResultRow :=
  [⟨1, 1, "WBC", 8000⟩, ⟨2, 1, "NEUT", 58⟩, ⟨3, 1, "LYMPH", 30⟩,
   ⟨4, 1, "MONO", 8⟩, ⟨5, 1, "EOS", 4⟩]

/-- C1 witness: on the example panel there are exactly four flags and the
NEUT flag carries corrected value 4640 = round(58*8000/100). -/
theorem wbc_percentage_detection_witness :
    (checkWbcPercentages wbcPctPanel).length = 4
    ∧ pctFlag 8000 ⟨2, 1, "NEUT", 58⟩ ∈ checkWbcPercentages wbcPctPanel
    ∧ (pctFlag 8000 (⟨2, 1, "NEUT", 58⟩ : ResultRow)).correctedValue = some 4640 := by
  have hdr : diffResults wbcPctPanel =
      [⟨2, 1, "NEUT", 58⟩, ⟨3, 1, "LYMPH", 30⟩, ⟨4, 1, "MONO", 8⟩, ⟨5, 1, "EOS", 4⟩] := rfl
  have hsum : ((diffResults wbcPctPanel).map (fun r => r.value)).sum = 100 := by
    rw [hdr]
    norm_num
  have h := (wbc_percentage_detection wbcPctPanel).1 ⟨1, 1, "WBC", 8000⟩ rfl
    (by norm_num) (by rw [hdr]; norm_num)
    (by
      intro r hr
      rw [hdr] at hr
      simp only [List.mem_cons, List.not_mem_nil, or_false] at hr
      rcases hr with rfl | rfl | rfl | rfl <;> norm_num)
    (by rw [hsum]; norm_num) (by rw [hsum]; norm_num)
  refine ⟨?_, (h.2 ⟨2, 1, "NEUT", 58⟩ (by rw [hdr]; simp)).2.1, ?_⟩
  · rw [h.1, hdr]
    rfl
  · have hc := (h.2 ⟨2, 1, "NEUT", 58⟩ (by rw [hdr]; simp)).2.2.2.2
    rw [hc]
    norm_num [pyround]

/-- The exam row used by the BASO-estimation examples. -/
def examBaso : ExamRow := ⟨1, 7, 100, 0, .completed⟩

/-- The spec example: WBC=8000 and the four components summing to 8000,
no BASO stored. -/
def dbBasoZero : DB :=
  { examsTable := [⟨1, 7, 100, 0, .completed⟩],
    resultsTable := [⟨1, 1, "WBC", 8000⟩, ⟨2, 1, "NEUT", 4640⟩, ⟨3, 1, "LYMPH", 2400⟩,
                     ⟨4, 1, "MONO", 640⟩, ⟨5, 1, "EOS", 320⟩],
    catalogCodes := ["BASO"], flagsTable := [], nextResultId := 6 }

/-- A panel whose WBC total (500) is below the 1000 floor, with the four
components present and no BASO stored. -/
def dbBasoBelowFloor : DB :=
  { examsTable := [⟨1, 7, 100, 0, .completed⟩],
    resultsTable := [⟨1, 1, "WBC", 500⟩, ⟨2, 1, "NEUT", 100⟩, ⟨3, 1, "LYMPH", 100⟩,
                     ⟨4, 1, "MONO", 100⟩, ⟨5, 1, "EOS", 100⟩],
    catalogCodes := ["BASO"], flagsTable := [], nextResultId := 6 }

/-- C2 counterexample: with WBC=500 — below the claim's 1000 floor — no
BASO, and all four other components present, `_estimate_baso_if_missing`
still creates a BASO measurement: the source applies no floor check during
estimation. -/
theorem baso_estimated_below_floor :
    getCode (resultsByCode dbBasoBelowFloor examBaso) "WBC" = some ⟨1, 1, "WBC", 500⟩
    ∧ ((500 : ℚ) < 1000)
    ∧ (estimateBasoIfMissing dbBasoBelowFloor examBaso).2.isSome = true :=
  ⟨rfl, by norm_num, rfl⟩

/-- C2 (amended): during correction application a BASO measurement is
created — with value round(max(0, WBC - sum of the other four)) and a
single info/cross_biomarker flag — iff BASO is absent, WBC is present and
all four other differential components are present (given BASO exists in
the catalog); the source applies no 1000 floor here, so estimation also
happens for totals below 1000.  When nothing is created, the database is
unchanged. -/
theorem baso_estimation (db : DB) (exam : ExamRow) (hb : "BASO" ∈ db.catalogCodes) :
    ((estimateBasoIfMissing db exam).2.isSome ↔
      (getCode (resultsByCode db exam) "BASO" = none ∧
       (getCode (resultsByCode db exam) "WBC").isSome ∧
       4 ≤ (wbcDiffCodes.filterMap (getCode (resultsByCode db exam))).length))
    ∧ (∀ f, (estimateBasoIfMissing db exam).2 = some f →
        f.severity = .info ∧ f.category = .crossBiomarker ∧ f.biomarkerCode = "BASO" ∧
        ∀ wbc, getCode (resultsByCode db exam) "WBC" = some wbc →
          f.correctedValue = some ((pyround (max 0 (wbc.value -
            ((wbcDiffCodes.filterMap (getCode (resultsByCode db exam))).map
              (fun r => r.value)).sum)) : ℤ) : ℚ))
    ∧ (∀ f, (estimateBasoIfMissing db exam).2 = some f →
        ∀ wbc, getCode (resultsByCode db exam) "WBC" = some wbc →
          (estimateBasoIfMissing db exam).1.resultsTable =
            db.resultsTable ++
              [{ id := db.nextResultId, examId := exam.id, code := "BASO",
                 value := ((pyround (max 0 (wbc.value -
                   ((wbcDiffCodes.filterMap (getCode (resultsByCode db exam))).map
                     (fun r => r.value)).sum)) : ℤ) : ℚ) }])
    ∧ ((estimateBasoIfMissing db exam).2 = none → (estimateBasoIfMissing db exam).1 = db) := by
  rw [estimateBasoIfMissing]
  by_cases hbaso : (getCode (resultsByCode db exam) "BASO").isSome = true
  · rw [if_pos hbaso]
    refine ⟨?_, ?_, ?_, ?_⟩
    · simp only [Option.isSome_none, Bool.false_eq_true, false_iff]
      rintro ⟨h0, -, -⟩
      rw [h0] at hbaso
      exact absurd hbaso (by simp)
    · intro f hf
      exact absurd hf (by simp)
    · intro f hf
      exact absurd hf (by simp)
    · intro _
      rfl
  · rw [if_neg hbaso]
    cases hwbc : getCode (resultsByCode db exam) "WBC" with
    | none =>
      dsimp only
      refine ⟨by simp, ?_, ?_, ?_⟩
      · intro f hf
        exact absurd hf (by simp)
      · intro f hf
        exact absurd hf (by simp)
      · intro _
        rfl
    | some wbc =>
      dsimp only
      by_cases hlen : (wbcDiffCodes.filterMap (getCode (resultsByCode db exam))).length < 4
      · rw [if_pos hlen]
        refine ⟨?_, ?_, ?_, ?_⟩
        · simp only [Option.isSome_none, Bool.false_eq_true, false_iff]
          rintro ⟨-, -, h4⟩
          omega
        · intro f hf
          exact absurd hf (by simp)
        · intro f hf
          exact absurd hf (by simp)
        · intro _
          rfl
      · rw [if_neg hlen, if_pos hb]
        refine ⟨?_, ?_, ?_, ?_⟩
        · simp only [Option.isSome_some, true_iff]
          exact ⟨Option.not_isSome_iff_eq_none.1 hbaso, by simp, by omega⟩
        · intro f hf
          obtain rfl := Option.some.inj hf
          refine ⟨rfl, rfl, rfl, ?_⟩
          intro wbc2 hwbc2
          obtain rfl := Option.some.inj hwbc2
          rfl
        · intro f hf wbc2 hwbc2
          obtain rfl := Option.some.inj hwbc2
          rfl
        · intro hnone
          exact absurd hnone (by simp)

/-- C2 witness: the spec example (WBC=8000, NEUT=4640, LYMPH=2400, MONO=640,
EOS=320, no BASO) creates a BASO measurement with value 0 and an info flag. -/
theorem baso_estimation_witness :
    ∃ f, (estimateBasoIfMissing dbBasoZero examBaso).2 = some f ∧
      f.severity = .info ∧ f.category = .crossBiomarker ∧ f.correctedValue = some 0 := by
  have h := baso_estimation dbBasoZero examBaso (by decide)
  have hsome : (estimateBasoIfMissing dbBasoZero examBaso).2.isSome = true :=
    h.1.2 ⟨rfl, rfl, by decide⟩
  obtain ⟨f, hf⟩ := Option.isSome_iff_exists.1 hsome
  refine ⟨f, hf, (h.2.1 f hf).1, (h.2.1 f hf).2.1, ?_⟩
  have hc := (h.2.1 f hf).2.2.2 ⟨1, 1, "WBC", 8000⟩ rfl
  have hlist : wbcDiffCodes.filterMap (getCode (resultsByCode dbBasoZero examBaso)) =
      [⟨2, 1, "NEUT", 4640⟩, ⟨3, 1, "LYMPH", 2400⟩, ⟨4, 1, "MONO", 640⟩,
       ⟨5, 1, "EOS", 320⟩] := rfl
  rw [hc, hlist]
  norm_num [pyround]

theorem histRowFlag_some (prevResults : List ResultRow) (d : ℤ) (r : ResultRow)
    (f : ValidationFlag) (h : histRowFlag prevResults d r = some f) :
    f.biomarkerCode = r.code ∧ f.severity = .warning ∧ f.category = .historical := by
  rw [histRowFlag] at h
  split at h
  · exact absurd h (by simp)
  · split at h
    · exact absurd h (by simp)
    · split at h
      · exact absurd h (by simp)
      · dsimp only at h
        split at h
        · obtain rfl := Option.some.inj h
          exact ⟨rfl, rfl, rfl⟩
        · exact absurd h (by simp)

/-- C7: against the most recent prior completed panel (none means no
flags), each current-panel code outside the volatile exclusion set that is
present in the prior panel with nonzero prior value receives exactly one
warning/historical flag iff |current-prior|/prior*100 > 200; volatile
codes never receive a historical flag. -/
theorem historical_consistency_check (db : DB) (exam : ExamRow) :
    (mostRecentPrior db exam = none → checkHistoricalConsistency db exam = [])
    ∧ (∀ f ∈ checkHistoricalConsistency db exam,
        f.severity = .warning ∧ f.category = .historical)
    ∧ ∀ prevExam, mostRecentPrior db exam = some prevExam →
        (∀ r ∈ resultsByCode db exam, r.code ∈ volatileCodes →
          (checkHistoricalConsistency db exam).countP
            (fun f => f.biomarkerCode == r.code) = 0)
        ∧ (∀ r ∈ resultsByCode db exam, r.code ∉ volatileCodes →
            ∀ pr, getCode (byCode (resultsFor db prevExam.id)) r.code = some pr →
              pr.value ≠ 0 →
              (checkHistoricalConsistency db exam).countP
                (fun f => f.biomarkerCode == r.code) =
                if |r.value - pr.value| / pr.value * 100 > 200 then 1 else 0) := by
  refine ⟨?_, ?_, ?_⟩
  · intro h
    rw [checkHistoricalConsistency, h]
  · intro f hf
    rw [checkHistoricalConsistency] at hf
    cases hp : mostRecentPrior db exam with
    | none =>
      rw [hp] at hf
      exact absurd hf (by simp)
    | some pe =>
      rw [hp] at hf
      rcases List.mem_filterMap.1 hf with ⟨r, _, hg⟩
      exact (histRowFlag_some _ _ r f hg).2
  · intro prevExam hp
    have hrw : checkHistoricalConsistency db exam =
        (resultsByCode db exam).filterMap
          (histRowFlag (byCode (resultsFor db prevExam.id)) prevExam.examDate) := by
      rw [checkHistoricalConsistency, hp]
    constructor
    · intro r hr hvol
      rw [hrw, countP_filterMap_code _ _
          (fun a f hf => (histRowFlag_some _ _ a f hf).1) r.code,
        countP_and_code _ r _ hr (byCode_codes_nodup _)]
      simp [histRowFlag, hvol]
    · intro r hr hvol pr hpr h0
      rw [hrw, countP_filterMap_code _ _
          (fun a f hf => (histRowFlag_some _ _ a f hf).1) r.code,
        countP_and_code _ r _ hr (byCode_codes_nodup _)]
      by_cases hc : |r.value - pr.value| / pr.value * 100 > 200 <;>
        simp [histRowFlag, hvol, hpr, h0, hc]

/-- The exam row of the historical-consistency example (the current panel). -/
def examHist : ExamRow := ⟨2, 7, 200, 0, .completed⟩

/-- History for the spec example: prior panel with CREA=0.9 and CORT=0.9,
current panel with CREA=3 and CORT=3. -/
def dbHist : DB :=
  { examsTable := [⟨1, 7, 100, 0, .completed⟩, ⟨2, 7, 200, 0, .completed⟩],
    resultsTable := [⟨1, 1, "CREA", 9/10⟩, ⟨2, 1, "CORT", 9/10⟩,
                     ⟨3, 2, "CREA", 3⟩, ⟨4, 2, "CORT", 3⟩],
    catalogCodes := [], flagsTable := [], nextResultId := 5 }

/-- C7 witness: prior CREA=0.9 to current CREA=3.0 (233%) yields exactly one
historical flag, while the same jump on volatile CORT yields none. -/
theorem historical_consistency_check_witness :
    (checkHistoricalConsistency dbHist examHist).countP
        (fun f => f.biomarkerCode == "CREA") = 1
    ∧ (checkHistoricalConsistency dbHist examHist).countP
        (fun f => f.biomarkerCode == "CORT") = 0 := by
  have hres : resultsByCode dbHist examHist =
      [⟨3, 2, "CREA", 3⟩, ⟨4, 2, "CORT", 3⟩] := rfl
  have h := (historical_consistency_check dbHist examHist).2.2
    ⟨1, 7, 100, 0, .completed⟩ rfl
  constructor
  · have hc := h.2 ⟨3, 2, "CREA", 3⟩ (by rw [hres]; simp) (by decide)
      ⟨1, 1, "CREA", 9/10⟩ rfl (by norm_num)
    norm_num [abs_of_nonneg] at hc
    simpa using hc
  · have hc := h.1 ⟨4, 2, "CORT", 3⟩ (by rw [hres]; simp) (by decide)
    simpa using hc

theorem countP_congr_mem {α : Type} (l : List α) (pq q : α → Bool)
    (h : ∀ a ∈ l, pq a = q a) : l.countP pq = l.countP q := by
  induction l with
  | nil => rfl
  | cons a rest ih =>
    simp only [List.countP_cons, h a (List.mem_cons_self a rest),
      ih (fun b hb => h b (List.mem_cons_of_mem a hb))]

theorem dupFlagFor_some (db : DB) (p : List ResultRow) (pe : ExamRow)
    (f : ValidationFlag) (h : dupFlagFor db p pe = some f) :
    f.severity = .warning ∧ f.category = .duplicateExam ∧ f.biomarkerCode = "EXAM" ∧
    f.examResultId = none ∧
    f.details = [("duplicate_exam_id", (pe.id : ℚ)),
                 ("match_pct", (exactMatches p (byCode (resultsFor db pe.id)) : ℚ) /
                   ((commonCodes p (byCode (resultsFor db pe.id))).length : ℚ) * 100),
                 ("exact_matches", (exactMatches p (byCode (resultsFor db pe.id)) : ℚ)),
                 ("total_compared",
                   ((commonCodes p (byCode (resultsFor db pe.id))).length : ℚ))] := by
  rw [dupFlagFor] at h
  split at h
  · exact absurd h (by simp)
  · dsimp only at h
    split at h
    · obtain rfl := Option.some.inj h
      exact ⟨rfl, rfl, rfl, rfl, rfl⟩
    · exact absurd h (by simp)

theorem dupFlagFor_isSome (db : DB) (p : List ResultRow) (pe : ExamRow) :
    (dupFlagFor db p pe).isSome = true ↔
      (5 ≤ (commonCodes p (byCode (resultsFor db pe.id))).length ∧
       (exactMatches p (byCode (resultsFor db pe.id)) : ℚ) /
         ((commonCodes p (byCode (resultsFor db pe.id))).length : ℚ) * 100 > 80) := by
  rw [dupFlagFor]
  by_cases h5 : (commonCodes p (byCode (resultsFor db pe.id))).length < 5
  · rw [if_pos h5]
    simp only [Option.isSome_none, Bool.false_eq_true, false_iff]
    rintro ⟨h, -⟩
    omega
  · rw [if_neg h5]
    dsimp only
    by_cases h80 : (exactMatches p (byCode (resultsFor db pe.id)) : ℚ) /
        ((commonCodes p (byCode (resultsFor db pe.id))).length : ℚ) * 100 > 80
    · rw [if_pos h80]
      simp only [Option.isSome_some, true_iff]
      exact ⟨by omega, h80⟩
    · rw [if_neg h80]
      simp only [Option.isSome_none, Bool.false_eq_true, false_iff]
      rintro ⟨-, h⟩
      exact h80 h

/-- C6: the duplicate check looks only at the subject's 10 most recent
prior completed panels (excluding the current one); it emits one
warning/duplicate_exam panel-level flag (code "EXAM", no measurement
reference) per prior panel sharing at least 5 codes with value-identical
rate above 80%, and no flag for any other prior panel. -/
theorem duplicate_exam_check (db : DB) (exam : ExamRow)
    (hids : (db.examsTable.map (fun e => e.id)).Nodup) :
    (∀ f ∈ checkDuplicateExam db exam,
       f.severity = .warning ∧ f.category = .duplicateExam ∧
       f.biomarkerCode = "EXAM" ∧ f.examResultId = none)
    ∧ (previousExams db exam).length ≤ 10
    ∧ (∀ pe ∈ previousExams db exam,
        pe.userId = exam.userId ∧ pe.status = .completed ∧ pe.id ≠ exam.id)
    ∧ (checkDuplicateExam db exam).length =
        (previousExams db exam).countP (fun pe =>
          decide (5 ≤ (commonCodes (resultsByCode db exam)
              (byCode (resultsFor db pe.id))).length ∧
            (exactMatches (resultsByCode db exam) (byCode (resultsFor db pe.id)) : ℚ) /
              ((commonCodes (resultsByCode db exam)
                (byCode (resultsFor db pe.id))).length : ℚ) * 100 > 80))
    ∧ ∀ pe ∈ previousExams db exam,
        ((∃ f ∈ checkDuplicateExam db exam,
            ("duplicate_exam_id", (pe.id : ℚ)) ∈ f.details) ↔
          (5 ≤ (commonCodes (resultsByCode db exam)
              (byCode (resultsFor db pe.id))).length ∧
           (exactMatches (resultsByCode db exam) (byCode (resultsFor db pe.id)) : ℚ) /
             ((commonCodes (resultsByCode db exam)
               (byCode (resultsFor db pe.id))).length : ℚ) * 100 > 80)) := by
  refine ⟨?_, ?_, ?_, ?_, ?_⟩
  · intro f hf
    rcases List.mem_filterMap.1 hf with ⟨pe, -, hg⟩
    have h := dupFlagFor_some db _ pe f hg
    exact ⟨h.1, h.2.1, h.2.2.1, h.2.2.2.1⟩
  · rw [previousExams]
    rw [List.length_take]
    exact min_le_left 10 _
  · intro pe hpe
    exact mem_previousExams hpe
  · rw [checkDuplicateExam, length_filterMap_eq_countP]
    apply countP_congr_mem
    intro pe _
    by_cases hC : (5 ≤ (commonCodes (resultsByCode db exam)
        (byCode (resultsFor db pe.id))).length ∧
        (exactMatches (resultsByCode db exam) (byCode (resultsFor db pe.id)) : ℚ) /
          ((commonCodes (resultsByCode db exam)
            (byCode (resultsFor db pe.id))).length : ℚ) * 100 > 80)
    · rw [decide_eq_true hC, (dupFlagFor_isSome db _ pe).2 hC]
    · rw [decide_eq_false hC]
      cases hs : (dupFlagFor db (resultsByCode db exam) pe).isSome
      · rfl
      · exact absurd ((dupFlagFor_isSome db _ pe).1 hs) hC
  · intro pe hpe
    constructor
    · rintro ⟨f, hfmem, hdet⟩
      rcases List.mem_filterMap.1 hfmem with ⟨pe2, hpe2, hg⟩
      have hd := (dupFlagFor_some db _ pe2 f hg).2.2.2.2
      rw [hd] at hdet
      have hid : (pe.id : ℚ) = (pe2.id : ℚ) := by
        simp only [List.mem_cons, List.not_mem_nil, or_false, Prod.mk.injEq] at hdet
        rcases hdet with ⟨-, h⟩ | ⟨hk, -⟩ | ⟨hk, -⟩ | ⟨hk, -⟩
        · exact h
        · exact absurd hk (by decide)
        · exact absurd hk (by decide)
        · exact absurd hk (by decide)
      have hideq : pe.id = pe2.id := Nat.cast_injective hid
      have hpeeq : pe = pe2 :=
        List.inj_on_of_nodup_map (previousExams_ids_nodup db exam hids) hpe hpe2 hideq
      rw [hpeeq]
      exact (dupFlagFor_isSome db _ pe2).1 (by rw [hg]; rfl)
    · intro hC
      have hs : (dupFlagFor db (resultsByCode db exam) pe).isSome = true :=
        (dupFlagFor_isSome db _ pe).2 hC
      obtain ⟨f, hf⟩ := Option.isSome_iff_exists.1 hs
      refine ⟨f, List.mem_filterMap.2 ⟨pe, hpe, hf⟩, ?_⟩
      rw [(dupFlagFor_some db _ pe f hf).2.2.2.2]
      simp

/-- The current exam of the duplicate-detection examples. -/
def examDup : ExamRow := ⟨2, 7, 200, 0, .completed⟩

/-- Two panels sharing 6 codes with identical values in 5 of them. -/
def dbDup : DB :=
  { examsTable := [⟨1, 7, 100, 0, .completed⟩, ⟨2, 7, 200, 0, .completed⟩],
    resultsTable :=
      [⟨1, 1, "HGB", 14⟩, ⟨2, 1, "HCT", 42⟩, ⟨3, 1, "GLI", 90⟩, ⟨4, 1, "CT", 180⟩,
       ⟨5, 1, "TG", 120⟩, ⟨6, 1, "TSH", 2⟩,
       ⟨7, 2, "HGB", 14⟩, ⟨8, 2, "HCT", 42⟩, ⟨9, 2, "GLI", 90⟩, ⟨10, 2, "CT", 180⟩,
       ⟨11, 2, "TG", 120⟩, ⟨12, 2, "TSH", 3⟩],
    catalogCodes := [], flagsTable := [], nextResultId := 13 }

/-- Two panels sharing only 4 codes (all with identical values). -/
def dbDupFew : DB :=
  { examsTable := [⟨1, 7, 100, 0, .completed⟩, ⟨2, 7, 200, 0, .completed⟩],
    resultsTable :=
      [⟨1, 1, "HGB", 14⟩, ⟨2, 1, "HCT", 42⟩, ⟨3, 1, "GLI", 90⟩, ⟨4, 1, "CT", 180⟩,
       ⟨7, 2, "HGB", 14⟩, ⟨8, 2, "HCT", 42⟩, ⟨9, 2, "GLI", 90⟩, ⟨10, 2, "CT", 180⟩,
       ⟨11, 2, "TG", 120⟩, ⟨12, 2, "TSH", 3⟩],
    catalogCodes := [], flagsTable := [], nextResultId := 13 }

/-- C6 witness: 6 common codes with 5 exact matches (83.3%) yield exactly
one flag; only 4 common codes yield none even though all 4 match. -/
theorem duplicate_exam_check_witness :
    (checkDuplicateExam dbDup examDup).length = 1
    ∧ checkDuplicateExam dbDupFew examDup = [] := by
  constructor
  · rw [(duplicate_exam_check dbDup examDup (by decide)).2.2.2.1]
    have hprev : previousExams dbDup examDup = [⟨1, 7, 100, 0, .completed⟩] := rfl
    rw [hprev]
    have hC : (5 ≤ (commonCodes (resultsByCode dbDup examDup)
        (byCode (resultsFor dbDup
          (⟨1, 7, 100, 0, ExamStatus.completed⟩ : ExamRow).id))).length ∧
        (exactMatches (resultsByCode dbDup examDup)
          (byCode (resultsFor dbDup
            (⟨1, 7, 100, 0, ExamStatus.completed⟩ : ExamRow).id)) : ℚ) /
          ((commonCodes (resultsByCode dbDup examDup)
            (byCode (resultsFor dbDup
              (⟨1, 7, 100, 0, ExamStatus.completed⟩ : ExamRow).id))).length : ℚ)
          * 100 > 80) := by
      constructor
      · rw [show (commonCodes (resultsByCode dbDup examDup)
            (byCode (resultsFor dbDup
              (⟨1, 7, 100, 0, ExamStatus.completed⟩ : ExamRow).id))).length = 6 from rfl]
        norm_num
      · rw [show (exactMatches (resultsByCode dbDup examDup)
              (byCode (resultsFor dbDup
                (⟨1, 7, 100, 0, ExamStatus.completed⟩ : ExamRow).id))) = 5 from rfl,
            show (commonCodes (resultsByCode dbDup examDup)
              (byCode (resultsFor dbDup
                (⟨1, 7, 100, 0, ExamStatus.completed⟩ : ExamRow).id))).length = 6 from rfl]
        norm_num
    simp only [List.countP_cons, List.countP_nil, decide_eq_true hC]
    rfl
  · rfl

/-- C3 witness: the spec's lipid examples — CT=200 flags, CT=190 does not. -/
theorem lipid_identity_check_witness :
    checkLipidFormula lipidRows200 ≠ [] ∧ checkLipidFormula lipidRows190 = [] := by
  constructor
  · exact (lipid_identity_check lipidRows200).1.2
      ⟨⟨1, 1, "CT", 200⟩, ⟨2, 1, "HDL", 50⟩, ⟨3, 1, "LDL", 100⟩, ⟨4, 1, "VLDL", 20⟩,
       rfl, rfl, rfl, rfl, by norm_num, by norm_num [abs_of_nonneg]⟩
  · exact (lipid_identity_check lipidRows190).2.2.2.2

/-- A panel whose component sum (8000) deviates 20% from WBC=10000. -/
def wbcSumPanel : List ResultRow :=
  [⟨1, 1, "WBC", 10000⟩, ⟨2, 1, "NEUT", 4000⟩, ⟨3, 1, "LYMPH", 3000⟩,
   ⟨4, 1, "MONO", 1000⟩]

/-- C5 witness: WBC=10000 with three components summing to 8000 (20%
deviation) produces a flag. -/
theorem wbc_sum_check_witness : checkWbcSum wbcSumPanel ≠ [] := by
  refine (wbc_sum_check wbcSumPanel).1.2 ⟨⟨1, 1, "WBC", 10000⟩, rfl, by decide, ?_⟩
  have hav : wbcAvailable wbcSumPanel =
      [⟨2, 1, "NEUT", 4000⟩, ⟨3, 1, "LYMPH", 3000⟩, ⟨4, 1, "MONO", 1000⟩] := rfl
  rw [hav]
  norm_num [abs_of_nonneg]

end BloodExams
